import Mathlib

/-!
Verification of the MARKETMIND signal-synthesis engine.

Shallow embedding of the core numeric pipeline of `backend/trade_engine.py`
and `backend/sentiment_engine.py` over exact rationals (the Python code uses
IEEE doubles; all claims under scrutiny are about the algebraic structure of
the formulas, which we model over `ℚ`).  External collaborators (yfinance,
the VADER lexicon, RSS feeds, `random`) are modelled as explicit inputs:
random draws become function parameters constrained to the documented ranges,
the live price provider becomes an explicit success/failure value, and the
per-headline VADER compound polarity becomes an explicit list of scores.
-/

namespace MarketMind

/-- Floor of a rational, written so that it evaluates by kernel reduction. -/
def ratFloor (x : ℚ) : ℤ := x.num / x.den

theorem ratFloor_eq (x : ℚ) : ratFloor x = ⌊x⌋ := Rat.floor_def.symm

/-- Python's `round` on a real value: round half to even (banker's rounding),
returning an integer.  `round(x, n)` is modelled by `roundTo n`. -/
def pythonRound (x : ℚ) : ℤ :=
  if x - ratFloor x < 1/2 then ratFloor x
  else if 1/2 < x - ratFloor x then ratFloor x + 1
  else if ratFloor x % 2 = 0 then ratFloor x else ratFloor x + 1

/-- Python's two-argument `round(x, ndigits)` over rationals. -/
def roundTo (ndigits : ℕ) (x : ℚ) : ℚ :=
  (pythonRound (x * 10 ^ ndigits) : ℚ) / 10 ^ ndigits

theorem floor_le_pythonRound (x : ℚ) : ⌊x⌋ ≤ pythonRound x := by
  unfold pythonRound
  rw [ratFloor_eq]
  split_ifs <;> omega

theorem pythonRound_le_floor_add_one (x : ℚ) : pythonRound x ≤ ⌊x⌋ + 1 := by
  unfold pythonRound
  rw [ratFloor_eq]
  split_ifs <;> omega

theorem pythonRound_mono {x y : ℚ} (h : x ≤ y) : pythonRound x ≤ pythonRound y := by
  rcases lt_or_eq_of_le (Int.floor_le_floor h) with hf | hf
  · calc pythonRound x ≤ ⌊x⌋ + 1 := pythonRound_le_floor_add_one x
      _ ≤ ⌊y⌋ := by omega
      _ ≤ pythonRound y := floor_le_pythonRound y
  · unfold pythonRound
    rw [ratFloor_eq, ratFloor_eq, hf]
    split_ifs <;> first | omega | linarith

theorem roundTo_mono (n : ℕ) {x y : ℚ} (h : x ≤ y) : roundTo n x ≤ roundTo n y := by
  unfold roundTo
  have hp : (0 : ℚ) < 10 ^ n := by positivity
  have hm : x * 10 ^ n ≤ y * 10 ^ n := by
    exact mul_le_mul_of_nonneg_right h (le_of_lt hp)
  have := pythonRound_mono hm
  exact div_le_div_of_nonneg_right (by exact_mod_cast this) (le_of_lt hp)

/-! ## PredictionFuser: `TradeSignalGenerator.estimate_next_24h`

The source extracts `price_now`, `volatility` and `momentum` from the latest
indicator row and receives `sentiment_score`; we embed the body as a function
of those four scalars. -/

/-- The effective volatility used by the fuser, from
`vol = float(latest["volatility"]) if latest["volatility"] > 0 else 0.015`. -/
def effVol (volatility : ℚ) : ℚ :=
  if volatility > 0 then volatility else 15/1000

/-- `one_sigma_move = price_now * vol`. -/
def one_sigma_move (price_now volatility : ℚ) : ℚ :=
  price_now * effVol volatility

/-- `sent_weight = (sentiment_score / 100.0) * 0.5`. -/
def sent_weight (sentiment_score : ℚ) : ℚ :=
  sentiment_score / 100 * (1/2)

/-- `mom_weight = 0.5 if momentum > 0 else -0.5`. -/
def mom_weight (momentum : ℚ) : ℚ :=
  if momentum > 0 then 1/2 else -(1/2)

/-- `total_bias = sent_weight + (mom_weight * 0.5)`. -/
def total_bias (momentum sentiment_score : ℚ) : ℚ :=
  sent_weight sentiment_score + mom_weight momentum * (1/2)

/-- The unrounded `estimated_price = price_now + expected_change`. -/
def estimated_price_raw (price_now volatility momentum sentiment_score : ℚ) : ℚ :=
  price_now + one_sigma_move price_now volatility * total_bias momentum sentiment_score

/-- The confidence value before the final clamp:
`confidence = 70`, `+= 10` on sign agreement, `-= 15` on high volatility. -/
def confidence_raw (volatility momentum sentiment_score : ℚ) : ℤ :=
  let c0 : ℤ := 70
  let c1 : ℤ :=
    if (momentum > 0 ∧ sentiment_score > 0) ∨ (momentum < 0 ∧ sentiment_score < 0)
    then c0 + 10 else c0
  if effVol volatility > 3/100 then c1 - 15 else c1

/-- The dict returned by `estimate_next_24h` (the two-element `range` list is
split into `range_low`/`range_high`). -/
structure Prediction where
  estimated_price : ℚ
  range_low : ℚ
  range_high : ℚ
  prediction_confidence : ℤ
  volatility_factor : ℚ
deriving DecidableEq, Repr

/-- `TradeSignalGenerator.estimate_next_24h`, lines 117-149 of
`trade_engine.py`, as a function of the latest row's scalars. -/
def estimate_next_24h (price_now volatility momentum sentiment_score : ℚ) : Prediction :=
  let vol := effVol volatility
  let sigma := one_sigma_move price_now volatility
  let estimated_price := estimated_price_raw price_now volatility momentum sentiment_score
  let low_est := estimated_price - sigma
  let high_est := estimated_price + sigma
  let confidence := confidence_raw volatility momentum sentiment_score
  { estimated_price := roundTo 2 estimated_price
    range_low := roundTo 2 low_est
    range_high := roundTo 2 high_est
    prediction_confidence := min (max confidence 40) 95
    volatility_factor := roundTo 4 vol }

/-- Modelled from the spec: `sigma = price * max(volatility, 0.015)`, the
formula §4.5 claims the fuser uses.  Kept separate from `one_sigma_move`
(which embeds the source) so the two can be compared. -/
def sigma_spec (price volatility : ℚ) : ℚ := price * max volatility (15/1000)

unseal Rat.mul Rat.inv Rat.add Rat.sub in
/-- C1 counterexample: at volatility 0.01 (strictly between 0 and the
claimed floor 0.015) the code uses sigma = price * 0.01, not
price * max(0.01, 0.015); the returned estimated price differs from the
spec-formula value. -/
theorem sigma_floor_counterexample :
    one_sigma_move 100 (1/100) ≠ sigma_spec 100 (1/100) ∧
    (estimate_next_24h 100 (1/100) 1 0).estimated_price = 401/4 ∧
    (estimate_next_24h 100 (1/100) 1 0).estimated_price ≠
      roundTo 2 (100 + sigma_spec 100 (1/100) * total_bias 1 0) := by
  refine ⟨?_, ?_, ?_⟩ <;> decide

/-- C1 (amended): the fuser substitutes 0.015 for the volatility only when
the snapshot volatility is ≤ 0 (zero or undefined-reported-as-0); any
strictly positive volatility, including values below 0.015, is used as-is,
so the spec formula `sigma = price * max(volatility, 0.015)` holds exactly
when the volatility is not in the open interval (0, 0.015). -/
theorem sigma_floor_only_at_nonpositive_volatility (price volatility : ℚ) :
    (0 < volatility → one_sigma_move price volatility = price * volatility) ∧
    (volatility ≤ 0 → one_sigma_move price volatility = price * (15/1000)) ∧
    (¬ (0 < volatility ∧ volatility < 15/1000) →
      one_sigma_move price volatility = sigma_spec price volatility) := by
  unfold one_sigma_move effVol sigma_spec
  push_neg
  refine ⟨fun h => by rw [if_pos h], fun h => by rw [if_neg (not_lt.mpr h)], fun h => ?_⟩
  by_cases h0 : 0 < volatility
  · rw [if_pos h0, max_eq_left (h h0)]
  · rw [if_neg h0, max_eq_right]
    nlinarith [not_lt.mp h0]

/-- Witness for the amended C1 theorem at volatility 0. -/
theorem sigma_floor_only_at_nonpositive_volatility_w :
    (0:ℚ) ≤ 0 ∧ one_sigma_move 100 0 = 100 * (15/1000) :=
  ⟨le_refl 0, (sigma_floor_only_at_nonpositive_volatility 100 0).2.1 (le_refl 0)⟩

unseal Rat.mul Rat.inv Rat.add Rat.sub in
/-- C2: the fuser reproduces the spec's closed-form examples: at
price=100, volatility=0.02, momentum=1.5, sentiment=50 it returns
estimated_price=101, range=[99,103], confidence=80; and with sentiment 0
and momentum 0 the momentum weight is -0.5, the bias is -0.25, and the
(unrounded) estimated price is price - 0.25 * sigma.

Rational arithmetic is unsealed so that the concrete branch evaluates. -/
theorem prediction_fuser_examples :
    estimate_next_24h 100 (2/100) (3/2) 50 =
      { estimated_price := 101, range_low := 99, range_high := 103,
        prediction_confidence := 80, volatility_factor := 1/50 } ∧
    mom_weight 0 = -(1/2) ∧ total_bias 0 0 = -(1/4) ∧
    ∀ price volatility : ℚ,
      estimated_price_raw price volatility 0 0 =
        price - 1/4 * one_sigma_move price volatility := by
  refine ⟨by decide, by decide, by decide, fun price volatility => ?_⟩
  unfold estimated_price_raw total_bias sent_weight mom_weight
  norm_num
  ring

/-- C10: before the final clamp the confidence is always one of
55, 65, 70, 80 (base 70, +10 on strict sign agreement, -15 on high
effective volatility), so the clamp to [40,95] is the identity and the
returned prediction confidence is always one of those four values. -/
theorem prediction_confidence_values (price volatility momentum sentiment : ℚ) :
    (confidence_raw volatility momentum sentiment = 55 ∨
     confidence_raw volatility momentum sentiment = 65 ∨
     confidence_raw volatility momentum sentiment = 70 ∨
     confidence_raw volatility momentum sentiment = 80) ∧
    min (max (confidence_raw volatility momentum sentiment) 40) 95 =
      confidence_raw volatility momentum sentiment ∧
    (estimate_next_24h price volatility momentum sentiment).prediction_confidence =
      confidence_raw volatility momentum sentiment := by
  have hmem : confidence_raw volatility momentum sentiment = 55 ∨
      confidence_raw volatility momentum sentiment = 65 ∨
      confidence_raw volatility momentum sentiment = 70 ∨
      confidence_raw volatility momentum sentiment = 80 := by
    unfold confidence_raw
    split_ifs <;> simp
  have hclamp : min (max (confidence_raw volatility momentum sentiment) 40) 95 =
      confidence_raw volatility momentum sentiment := by
    rcases hmem with h | h | h | h <;> rw [h] <;> rfl
  exact ⟨hmem, hclamp, by rw [estimate_next_24h]; exact hclamp⟩

/-! ## Market bias classification: `TradeSignalGenerator.get_signal`

Lines 179-186 of `trade_engine.py`: sequential reassignment of `bias`
starting from `"Neutral"`, then the RSI override. -/

/-- The market bias label, embedding the source's statement sequence:
`bias = "Neutral"`, the if/elif on the moving averages, then the RSI
override. -/
def market_bias (price sma_20 sma_50 rsi : ℚ) : String :=
  let bias := "Neutral"
  let bias := if price > sma_50 ∧ sma_20 > sma_50 then "Positive"
    else if price < sma_50 ∧ sma_20 < sma_50 then "Negative"
    else bias
  if 45 ≤ rsi ∧ rsi ≤ 55 then "Neutral" else bias

/-- Modelled from the spec: the §4.2 classification read as a single
decision tree with the RSI-neutrality override applied first. -/
def market_bias_spec (price sma_20 sma_50 rsi : ℚ) : String :=
  if 45 ≤ rsi ∧ rsi ≤ 55 then "Neutral"
  else if price > sma_50 ∧ sma_20 > sma_50 then "Positive"
  else if price < sma_50 ∧ sma_20 < sma_50 then "Negative"
  else "Neutral"

/-- C3: the computed market bias label agrees everywhere with the spec's
classification: Positive / Negative by the moving-average comparisons,
Neutral otherwise, with RSI in [45,55] forcing Neutral regardless. -/
theorem market_bias_matches_spec (price sma_20 sma_50 rsi : ℚ) :
    market_bias price sma_20 sma_50 rsi = market_bias_spec price sma_20 sma_50 rsi := by
  unfold market_bias market_bias_spec
  split_ifs <;> rfl

/-! ## SentimentScorer: `SentimentEngine.analyze_sentiment`

The per-headline VADER compound polarity is an external lexicon lookup; we
take the list of per-headline compound scores as the input, exactly the
values the source feeds into `sum(scores) / len(scores)`. -/

/-- The dict returned by `analyze_sentiment`. -/
structure SentimentResult where
  score : ℤ
  label : String
  explanation : String
deriving DecidableEq, Repr

/-- `scaled_score = round(avg_score * 100)` where
`avg_score = sum(scores) / len(scores)`. -/
def scaled_score (scores : List ℚ) : ℤ :=
  pythonRound (scores.sum / scores.length * 100)

/-- `SentimentEngine.analyze_sentiment`, lines 200-238 of
`sentiment_engine.py`, as a function of the per-headline compound scores
(empty list models falsy `news`). -/
def analyze_sentiment (scores : List ℚ) : SentimentResult :=
  if scores = [] then
    { score := 0, label := "Neutral",
      explanation := "No recent impactful news detected, assuming neutral market sentiment." }
  else
    let s := scaled_score scores
    if s ≥ 40 then
      { score := s, label := "Very Positive",
        explanation := "Strong positive sentiment detected in recent headlines; market outlook is bullish." }
    else if 10 ≤ s ∧ s < 40 then
      { score := s, label := "Positive",
        explanation := "Moderately positive news flow suggests cautious optimism." }
    else if -10 < s ∧ s < 10 then
      { score := s, label := "Neutral",
        explanation := "News sentiment is balanced; no strong directional bias from media." }
    else if -40 < s ∧ s ≤ -10 then
      { score := s, label := "Negative",
        explanation := "Negative headlines are surfacing, suggesting potential downside pressure." }
    else
      { score := s, label := "Very Negative",
        explanation := "Strong negative sentiment dominates; high risk of bearish movement." }

/-- Modelled from the spec: the §4.4 label thresholds on the scaled score:
at least 40 Very Positive; [10,40) Positive; (-10,10) Neutral;
(-40,-10] Negative; else Very Negative. -/
def sentiment_label_spec (s : ℤ) : String :=
  if s ≥ 40 then "Very Positive"
  else if s ≥ 10 then "Positive"
  else if s > -10 then "Neutral"
  else if s > -40 then "Negative"
  else "Very Negative"

/-- C4: on every non-empty score list the label returned by the scorer is
exactly the spec's threshold classification of the scaled score; in
particular a scaled score of exactly 10 yields Positive and exactly -10
yields Negative. -/
theorem sentiment_label_thresholds (scores : List ℚ) (h : scores ≠ []) :
    (analyze_sentiment scores).label = sentiment_label_spec (scaled_score scores) ∧
    (scaled_score scores = 10 → (analyze_sentiment scores).label = "Positive") ∧
    (scaled_score scores = -10 → (analyze_sentiment scores).label = "Negative") := by
  have hmain : (analyze_sentiment scores).label = sentiment_label_spec (scaled_score scores) := by
    unfold analyze_sentiment sentiment_label_spec
    rw [if_neg h]
    dsimp only
    split_ifs <;> first | rfl | (exfalso; omega)
  refine ⟨hmain, fun h10 => ?_, fun h10 => ?_⟩ <;>
    rw [hmain, h10] <;> rfl

unseal Rat.mul Rat.inv Rat.add Rat.sub in
/-- Witness for C4 at the single-headline score list [0.1]: the scaled
score is exactly 10 and the label is Positive. -/
theorem sentiment_label_thresholds_w :
    ([(1:ℚ)/10] ≠ ([] : List ℚ)) ∧ scaled_score [(1:ℚ)/10] = 10 ∧
    (analyze_sentiment [(1:ℚ)/10]).label = "Positive" :=
  ⟨by decide, by decide,
    (sentiment_label_thresholds [(1:ℚ)/10] (by decide)).2.1 (by decide)⟩

/-- C9: the empty headline list yields score 0, label Neutral and the
dedicated no-data explanation, and no non-empty input ever returns that
explanation (in particular a computed neutral on non-empty input carries a
different explanation string). -/
theorem empty_news_neutral (scores : List ℚ) (h : scores ≠ []) :
    analyze_sentiment [] =
      { score := 0, label := "Neutral",
        explanation := "No recent impactful news detected, assuming neutral market sentiment." } ∧
    (analyze_sentiment scores).explanation ≠
      (analyze_sentiment []).explanation := by
  refine ⟨rfl, ?_⟩
  have h0 : (analyze_sentiment []).explanation =
      "No recent impactful news detected, assuming neutral market sentiment." := rfl
  rw [h0]
  unfold analyze_sentiment
  rw [if_neg h]
  dsimp only
  split_ifs <;> (dsimp only; decide)

/-- Witness for C9 at the single-headline score list [0]: a computed
neutral whose explanation differs from the no-data explanation. -/
theorem empty_news_neutral_w :
    ([(0:ℚ)] ≠ ([] : List ℚ)) ∧
    (analyze_sentiment [(0:ℚ)]).explanation ≠
      (analyze_sentiment []).explanation :=
  ⟨by decide, (empty_news_neutral [(0:ℚ)] (by decide)).2⟩

/-! ## RSI: `TradeSignalGenerator.calculate_indicators`

Lines 91-95 of `trade_engine.py`: `delta = close.diff()`,
`gain = delta.clip(lower=0).rolling(14).mean()`,
`loss = (-delta.clip(upper=0)).rolling(14).mean()`,
`rs = gain / loss.replace(0, 0.001)`, `RSI = 100 - 100/(1+rs)`.
A rolling(14) cell at row `i` is defined iff rows `i-13..i` all carry a
non-NaN delta, i.e. iff `i ≥ 14`; undefined cells become 0 via the final
`fillna(0)`. -/

/-- The successive differences of the close column (`delta` without its
leading NaN): entry `j` is `close[j+1] - close[j]`. -/
def diffsOf (closes : List ℚ) : List ℚ :=
  List.zipWith (fun a b => a - b) closes.tail closes

/-- Rolling mean of clipped gains over one 14-diff window. -/
def gains_mean (ds : List ℚ) : ℚ := (ds.map (fun d => max d 0)).sum / 14

/-- Rolling mean of clipped losses over one 14-diff window. -/
def losses_mean (ds : List ℚ) : ℚ := (ds.map (fun d => max (-d) 0)).sum / 14

/-- One RSI cell from its 14-diff window, with the `loss.replace(0, 0.001)`
epsilon substitution. -/
def rsi_from_diffs (ds : List ℚ) : ℚ :=
  let loss := losses_mean ds
  let rs := gains_mean ds / (if loss = 0 then 1/1000 else loss)
  100 - 100 / (1 + rs)

/-- The RSI column cell at row `i` (none = NaN: window not yet full). -/
def rsi_cell (closes : List ℚ) (i : ℕ) : Option ℚ :=
  if 14 ≤ i ∧ i < closes.length then
    some (rsi_from_diffs (((diffsOf closes).drop (i - 14)).take 14))
  else none

/-- The RSI column after the final `fillna(0)`. -/
def rsi_col (closes : List ℚ) (i : ℕ) : ℚ := (rsi_cell closes i).getD 0

theorem gains_mean_nonneg (ds : List ℚ) : 0 ≤ gains_mean ds := by
  unfold gains_mean
  apply div_nonneg _ (by norm_num)
  apply List.sum_nonneg
  intro x hx
  simp only [List.mem_map] at hx
  obtain ⟨d, _, rfl⟩ := hx
  exact le_max_right d 0

theorem losses_mean_nonneg (ds : List ℚ) : 0 ≤ losses_mean ds := by
  unfold losses_mean
  apply div_nonneg _ (by norm_num)
  apply List.sum_nonneg
  intro x hx
  simp only [List.mem_map] at hx
  obtain ⟨d, _, rfl⟩ := hx
  exact le_max_right (-d) 0

theorem rsi_from_diffs_bounds (ds : List ℚ) :
    0 ≤ rsi_from_diffs ds ∧ rsi_from_diffs ds < 100 := by
  unfold rsi_from_diffs
  dsimp only
  have hg : 0 ≤ gains_mean ds := gains_mean_nonneg ds
  have hd : 0 < (if losses_mean ds = 0 then 1/1000 else losses_mean ds) := by
    split_ifs with h
    · norm_num
    · exact lt_of_le_of_ne (losses_mean_nonneg ds) (Ne.symm h)
  have hrs : 0 ≤ gains_mean ds / (if losses_mean ds = 0 then 1/1000 else losses_mean ds) :=
    div_nonneg hg hd.le
  set rs := gains_mean ds / (if losses_mean ds = 0 then 1/1000 else losses_mean ds) with hrsdef
  have h1 : (0:ℚ) < 1 + rs := by linarith
  have hq1 : 0 < 100 / (1 + rs) := by positivity
  have hq2 : 100 / (1 + rs) ≤ 100 := by
    rw [div_le_iff₀ h1]
    nlinarith
  constructor <;> linarith

/-- C5: every cell of the RSI column lies in [0,100]: the undefined-window
sentinel is 0 and every computed cell is strictly below 100, the epsilon
divisor 0.001 replacing an exactly-zero rolling loss mean. -/
theorem rsi_col_bounds (closes : List ℚ) (i : ℕ) :
    0 ≤ rsi_col closes i ∧ rsi_col closes i ≤ 100 ∧
    ∀ r, rsi_cell closes i = some r → r < 100 := by
  unfold rsi_col rsi_cell
  split_ifs with h
  · have hb := rsi_from_diffs_bounds (((diffsOf closes).drop (i - 14)).take 14)
    refine ⟨hb.1, le_of_lt hb.2, fun r hr => ?_⟩
    obtain rfl : rsi_from_diffs (((diffsOf closes).drop (i - 14)).take 14) = r :=
      Option.some_injective _ hr
    exact hb.2
  · exact ⟨le_refl 0, by norm_num, fun r hr => by cases hr⟩

unseal Rat.mul Rat.inv Rat.add Rat.sub in
/-- Witness for C5 on a 15-bar strictly rising close series (all diffs are
gains, the rolling loss mean is exactly 0): the computed RSI at the last
row is 100000/1001 = 99.9000..., strictly below 100. -/
theorem rsi_col_bounds_w :
    rsi_cell [0, 1, 2, 3, 4, 5, 6, 7, 8, 9, 10, 11, 12, 13, 14] 14 =
      some (100000/1001) ∧ ((100000:ℚ)/1001) < 100 ∧
    0 ≤ rsi_col [0, 1, 2, 3, 4, 5, 6, 7, 8, 9, 10, 11, 12, 13, 14] 14 :=
  ⟨by decide,
    (rsi_col_bounds [0, 1, 2, 3, 4, 5, 6, 7, 8, 9, 10, 11, 12, 13, 14] 14).2.2
      (100000/1001) (by decide),
    (rsi_col_bounds [0, 1, 2, 3, 4, 5, 6, 7, 8, 9, 10, 11, 12, 13, 14] 14).1⟩

/-! ## News deduplication: `SentimentEngine._deduplicate_news`

Lines 184-198 of `sentiment_engine.py`.  The normalized key is the
lower-cased title with every character outside `[\w\s]` removed, split on
whitespace, truncated to the first 10 words, re-joined with single
spaces (ASCII reading of the Python `\w`/`\s` classes). -/

/-- One aggregated headline. -/
structure NewsItem where
  title : String
  link : String
  source : String
  published_timestamp : ℚ
deriving DecidableEq, Repr

/-- ASCII `\w`: letters, digits and underscore. -/
def isWordChar (c : Char) : Bool := c.isAlphanum || c == '_'

/-- ASCII `\s`: the whitespace characters Python's `\s` matches. -/
def isSpaceChar (c : Char) : Bool :=
  c == ' ' || c == '\t' || c == '\n' || c == '\x0d' || c == '\x0b' || c == '\x0c'

/-- The normalized-title deduplication key:
`re.sub(r'[^\w\s]', '', title.lower())` then first 10 whitespace-split
words joined by single spaces. -/
def normalize_title (t : String) : String :=
  let lowered := t.data.map Char.toLower
  let stripped := lowered.filter (fun c => isWordChar c || isSpaceChar c)
  let canon := stripped.map (fun c => if isSpaceChar c then ' ' else c)
  String.intercalate " "
    (((String.mk canon).splitOn " ").filter (fun w => w ≠ "") |>.take 10)

/-- The dedup loop: `seen_titles` accumulates keys, first occurrence kept. -/
def dedup_aux : List String → List NewsItem → List NewsItem
  | _, [] => []
  | seen, x :: xs =>
    if normalize_title x.title ∈ seen then dedup_aux seen xs
    else x :: dedup_aux (normalize_title x.title :: seen) xs

/-- `SentimentEngine._deduplicate_news`. -/
def deduplicate_news (news_list : List NewsItem) : List NewsItem :=
  dedup_aux [] news_list

theorem dedup_aux_idem (l : List NewsItem) :
    ∀ seen, dedup_aux seen (dedup_aux seen l) = dedup_aux seen l := by
  induction l with
  | nil => intro seen; rfl
  | cons x xs ih =>
    intro seen
    by_cases hm : normalize_title x.title ∈ seen
    · rw [dedup_aux, if_pos hm]
      exact ih seen
    · rw [dedup_aux, if_neg hm, dedup_aux, if_neg hm]
      rw [ih (normalize_title x.title :: seen)]

/-- C8: deduplication is idempotent: applying `_deduplicate_news` to its
own output returns the output unchanged, for every headline list. -/
theorem deduplicate_news_idempotent (l : List NewsItem) :
    deduplicate_news (deduplicate_news l) = deduplicate_news l := by
  unfold deduplicate_news
  exact dedup_aux_idem l []

/-! ## DemoSeriesSynthesizer: `TradeSignalGenerator.generate_demo_data`

Lines 49-76 of `trade_engine.py`.  `pd.date_range(end=now, periods=60,
freq="D")` yields 60 consecutive days; we model a date by its day index.
The `random.uniform` draws become function parameters: per-day price
change in [-2,2], low offset and high offset in [0.5,1.5], open offset in
[-0.5,0.5], a base-price offset in [-20,20], and an integer volume. -/

/-- One OHLCV bar, field names as the source's dict keys. -/
structure Bar where
  Date : ℕ
  Open : ℚ
  High : ℚ
  Low : ℚ
  Close : ℚ
  Volume : ℤ
deriving DecidableEq, Repr

/-- The demo-data loop body: starting from `price`, one bar per remaining
day, each with `price += change`, `low = price - lowOff`,
`high = price + highOff`, `open = (low+high)/2 + openOff`, `close = price`,
all rounded to 2 decimal places. -/
def demo_bars (change lowOff highOff openOff : ℕ → ℚ) (volf : ℕ → ℤ) :
    ℚ → ℕ → ℕ → List Bar
  | _, _, 0 => []
  | price, day, n + 1 =>
    let p := price + change day
    let low := p - lowOff day
    let high := p + highOff day
    let open_p := (low + high) / 2 + openOff day
    { Date := day, Open := roundTo 2 open_p, High := roundTo 2 high,
      Low := roundTo 2 low, Close := roundTo 2 p, Volume := volf day }
      :: demo_bars change lowOff highOff openOff volf p (day + 1) n

/-- `TradeSignalGenerator.generate_demo_data`: 60 daily bars starting from
`base_price = 150.0 + uniform(-20, 20)`. -/
def generate_demo_data (base_off : ℚ) (change lowOff highOff openOff : ℕ → ℚ)
    (volf : ℕ → ℤ) : List Bar :=
  demo_bars change lowOff highOff openOff volf (150 + base_off) 0 60

theorem demo_bars_length (change lowOff highOff openOff : ℕ → ℚ) (volf : ℕ → ℤ) :
    ∀ n price day, (demo_bars change lowOff highOff openOff volf price day n).length = n := by
  intro n
  induction n with
  | zero => intro price day; rfl
  | succ n ih =>
    intro price day
    rw [demo_bars]
    simp only [List.length_cons, ih]

theorem demo_bars_date_ge (change lowOff highOff openOff : ℕ → ℚ) (volf : ℕ → ℤ) :
    ∀ n price day b, b ∈ demo_bars change lowOff highOff openOff volf price day n →
      day ≤ b.Date := by
  intro n
  induction n with
  | zero => intro price day b hb; cases hb
  | succ n ih =>
    intro price day b hb
    rw [demo_bars] at hb
    rcases List.mem_cons.mp hb with rfl | hb
    · exact le_refl day
    · exact le_trans (Nat.le_succ day) (ih _ (day + 1) b hb)

theorem demo_bars_dates_strict (change lowOff highOff openOff : ℕ → ℚ) (volf : ℕ → ℤ) :
    ∀ n price day,
      ((demo_bars change lowOff highOff openOff volf price day n).map Bar.Date).Pairwise
        (fun a b => a < b) := by
  intro n
  induction n with
  | zero => intro price day; exact List.Pairwise.nil
  | succ n ih =>
    intro price day
    rw [demo_bars]
    simp only [List.map_cons, List.pairwise_cons]
    refine ⟨fun d hd => ?_, ih _ (day + 1)⟩
    simp only [List.mem_map] at hd
    obtain ⟨b, hb, rfl⟩ := hd
    exact lt_of_lt_of_le (Nat.lt_succ_self day)
      (demo_bars_date_ge change lowOff highOff openOff volf n _ (day + 1) b hb)

theorem demo_bars_wellformed (change lowOff highOff openOff : ℕ → ℚ) (volf : ℕ → ℤ)
    (hlo : ∀ i, 1/2 ≤ lowOff i ∧ lowOff i ≤ 3/2)
    (hhi : ∀ i, 1/2 ≤ highOff i ∧ highOff i ≤ 3/2)
    (hop : ∀ i, -(1/2) ≤ openOff i ∧ openOff i ≤ 1/2) :
    ∀ n price day b, b ∈ demo_bars change lowOff highOff openOff volf price day n →
      b.Low ≤ b.Open ∧ b.Open ≤ b.High ∧ b.Low ≤ b.Close ∧ b.Close ≤ b.High := by
  intro n
  induction n with
  | zero => intro price day b hb; cases hb
  | succ n ih =>
    intro price day b hb
    rw [demo_bars] at hb
    rcases List.mem_cons.mp hb with rfl | hb
    · obtain ⟨hlo1, hlo2⟩ := hlo day
      obtain ⟨hhi1, hhi2⟩ := hhi day
      obtain ⟨hop1, hop2⟩ := hop day
      dsimp only
      refine ⟨roundTo_mono 2 (by linarith), roundTo_mono 2 (by linarith),
        roundTo_mono 2 (by linarith), roundTo_mono 2 (by linarith)⟩
    · exact ih _ (day + 1) b hb

/-- C6: whatever the random draws (within their documented ranges), the
demo synthesizer yields exactly 60 bars, with strictly increasing dates,
and each bar has low ≤ open ≤ high and low ≤ close ≤ high even after the
per-field rounding to 2 decimal places. -/
theorem generate_demo_data_wellformed (base_off : ℚ)
    (change lowOff highOff openOff : ℕ → ℚ) (volf : ℕ → ℤ)
    (hbase : -20 ≤ base_off ∧ base_off ≤ 20)
    (hchange : ∀ i, -2 ≤ change i ∧ change i ≤ 2)
    (hlo : ∀ i, 1/2 ≤ lowOff i ∧ lowOff i ≤ 3/2)
    (hhi : ∀ i, 1/2 ≤ highOff i ∧ highOff i ≤ 3/2)
    (hop : ∀ i, -(1/2) ≤ openOff i ∧ openOff i ≤ 1/2) :
    (generate_demo_data base_off change lowOff highOff openOff volf).length = 60 ∧
    ((generate_demo_data base_off change lowOff highOff openOff volf).map
      Bar.Date).Pairwise (fun a b => a < b) ∧
    ∀ b ∈ generate_demo_data base_off change lowOff highOff openOff volf,
      b.Low ≤ b.Open ∧ b.Open ≤ b.High ∧ b.Low ≤ b.Close ∧ b.Close ≤ b.High := by
  refine ⟨demo_bars_length change lowOff highOff openOff volf 60 _ 0,
    demo_bars_dates_strict change lowOff highOff openOff volf 60 _ 0,
    fun b hb => demo_bars_wellformed change lowOff highOff openOff volf
      hlo hhi hop 60 _ 0 b hb⟩

/-- Witness for C6 with the constant draws change=0, lowOff=highOff=1,
openOff=0, base offset 0, volume 1000000. -/
theorem generate_demo_data_wellformed_w :
    ((-20:ℚ) ≤ 0 ∧ (0:ℚ) ≤ 20) ∧
    (generate_demo_data 0 (fun _ => 0) (fun _ => 1) (fun _ => 1) (fun _ => 0)
      (fun _ => 1000000)).length = 60 ∧
    ∀ b ∈ generate_demo_data 0 (fun _ => 0) (fun _ => 1) (fun _ => 1) (fun _ => 0)
      (fun _ => 1000000),
      b.Low ≤ b.Open ∧ b.Open ≤ b.High ∧ b.Low ≤ b.Close ∧ b.Close ≤ b.High := by
  have h := generate_demo_data_wellformed 0 (fun _ => 0) (fun _ => 1) (fun _ => 1)
    (fun _ => 0) (fun _ => 1000000)
    (by norm_num) (fun i => by norm_num) (fun i => by norm_num)
    (fun i => by norm_num) (fun i => by norm_num)
  exact ⟨by norm_num, h.1, h.2.2⟩

/-! ## Live/demo fallback: `TradeSignalGenerator.fetch_data` and the
`get_signal` chart slice

`fetch_data` (lines 11-47) either succeeds with the live frame (when it
has at least 10 rows) or falls back to `generate_demo_data` and sets
`demo_mode`; an exception inside the try block also falls back.
`get_signal` (lines 151-238) errors out only on an empty frame, reports
`mode = "DEMO" if self.demo_mode else "LIVE"`, and builds the chart list
from `df.tail(100)` (one chart entry per row; `calculate_indicators` only
adds columns, never rows). -/

/-- The outcome of the external live provider: an exception, or a frame
(possibly empty) with the given bars. -/
inductive LiveResult where
  | failure : LiveResult
  | ok : List Bar → LiveResult
deriving DecidableEq

/-- `fetch_data`: bars used downstream together with the `demo_mode` flag. -/
def fetch_data (live : LiveResult) (demo : List Bar) : List Bar × Bool :=
  match live with
  | .failure => (demo, true)
  | .ok df => if df.length < 10 then (demo, true) else (df, false)

/-- `df.tail(n)`: the last `n` rows. -/
def tail_rows (n : ℕ) (l : List Bar) : List Bar := l.drop (l.length - n)

/-- The mode string and chart length produced by `get_signal`
(none models the early `{"error": "No data found"}` return). -/
def get_signal_mode_chart (live : LiveResult) (demo : List Bar) : Option (String × ℕ) :=
  let fd := fetch_data live demo
  if fd.1 = [] then none
  else some (if fd.2 then "DEMO" else "LIVE", (tail_rows 100 fd.1).length)

/-- C7: whenever the live provider raises, returns no data, or returns
fewer than 10 bars, the signal is built from the demo synthesizer: the
mode field is DEMO (never LIVE) and the chart series has exactly 60
entries (the demo length, under the 100-bar tail cap). -/
theorem fallback_reports_demo (live : LiveResult) (base_off : ℚ)
    (change lowOff highOff openOff : ℕ → ℚ) (volf : ℕ → ℤ)
    (hfail : live = LiveResult.failure ∨
      ∃ df, live = LiveResult.ok df ∧ df.length < 10) :
    get_signal_mode_chart live
      (generate_demo_data base_off change lowOff highOff openOff volf) =
      some ("DEMO", 60) := by
  have hlen : (generate_demo_data base_off change lowOff highOff openOff volf).length = 60 :=
    demo_bars_length change lowOff highOff openOff volf 60 _ 0
  have hne : generate_demo_data base_off change lowOff highOff openOff volf ≠ [] := by
    intro h
    rw [h] at hlen
    exact absurd hlen (by norm_num)
  have htail : (tail_rows 100
      (generate_demo_data base_off change lowOff highOff openOff volf)).length = 60 := by
    unfold tail_rows
    rw [List.length_drop, hlen]
  have hfd : fetch_data live
      (generate_demo_data base_off change lowOff highOff openOff volf) =
      (generate_demo_data base_off change lowOff highOff openOff volf, true) := by
    rcases hfail with rfl | ⟨df, rfl, hdf⟩
    · rfl
    · simp only [fetch_data, if_pos hdf]
  unfold get_signal_mode_chart
  rw [hfd]
  dsimp only
  rw [if_neg hne, htail]
  rfl

/-- Witness for C7: a raising provider with the constant demo draws. -/
theorem fallback_reports_demo_w :
    (LiveResult.failure = LiveResult.failure ∨
      ∃ df, LiveResult.failure = LiveResult.ok df ∧ df.length < 10) ∧
    get_signal_mode_chart LiveResult.failure
      (generate_demo_data 0 (fun _ => 0) (fun _ => 1) (fun _ => 1) (fun _ => 0)
        (fun _ => 1000000)) = some ("DEMO", 60) :=
  ⟨Or.inl rfl,
    fallback_reports_demo LiveResult.failure 0 (fun _ => 0) (fun _ => 1) (fun _ => 1)
      (fun _ => 0) (fun _ => 1000000) (Or.inl rfl)⟩

end MarketMind
